import Mathlib

/-!
Shallow embedding of the greeting store and predicate builder from
`src/main.go` (the terminal, most complete variant of the program).
The SQLite table `greetings`, the `/greet` insert handler, the
`/greetings` listing handler, the `/clear` handler and the `/search`
handler are modelled as pure functions over an explicit store state.
Wall-clock time enters as an already formatted timestamp string, the
way `time.Now().Format("2006-01-02 15:04:05")` produces it.
-/

namespace GreetStore

/-- One row of the `greetings` table: `id INTEGER PRIMARY KEY AUTOINCREMENT`
plus the four text columns (main.go lines 40-47). -/
structure Row where
  id : Nat
  first_name : String
  last_name : String
  message : String
  timestamp : String
deriving Repr, DecidableEq

/-- The JSON shape returned to clients (the `Greeting` struct, main.go
lines 19-24); the `id` column is not part of it. -/
structure Greeting where
  firstName : String
  lastName : String
  message : String
  timestamp : String
deriving Repr, DecidableEq

/-- State of the store: the current table rows plus the AUTOINCREMENT
counter; SQLite assigns the next counter value on insert and never
reuses an id, and DELETE does not reset the counter. -/
structure StoreState where
  rows : List Row
  nextId : Nat
deriving Repr, DecidableEq

/-- Errors surfaced by the handlers: `invalidInput` is the 400 response of
`/greet` for empty names (main.go lines 117-121); `invalidFilter` is the
400 response of `/search` for unparseable dates (lines 237-254). -/
inductive AppError where
  | invalidInput
  | invalidFilter
deriving Repr, DecidableEq

/-- Gregorian leap-year rule, as in Go package `time`. -/
def isLeapYear (y : Nat) : Bool :=
  y % 4 == 0 && (y % 100 != 0 || y % 400 == 0)

/-- Number of days of a month, used by Go `time.Parse` to validate the day. -/
def daysInMonth (y m : Nat) : Nat :=
  if m = 2 then (if isLeapYear y then 29 else 28)
  else if m = 4 ∨ m = 6 ∨ m = 9 ∨ m = 11 then 30
  else 31

/-- A parsed calendar date: the relevant content of a Go `time.Time`
produced by `time.Parse("2006-01-02", s)` (all time-of-day fields zero). -/
structure Date where
  year : Nat
  month : Nat
  day : Nat
deriving Repr, DecidableEq

/-- Go's zero `time.Time` is January 1 of year 1. -/
def zeroDate : Date := ⟨1, 1, 1⟩

/-- Go `time.Time.IsZero` for a date parsed with layout `2006-01-02`. -/
def Date.isZero (d : Date) : Bool := d == zeroDate

/-- Numeric value of a decimal digit character. -/
def digitVal (c : Char) : Nat := c.toNat - 48

/-- Go `time.Parse("2006-01-02", s)`: accepts exactly ten characters of the
shape `dddd-dd-dd` with a month in 1..12 and a day valid for that month
(anything else, including trailing text, is a parse error). -/
def parseDate (s : String) : Option Date :=
  match s.toList with
  | [y1, y2, y3, y4, h1, m1, m2, h2, d1, d2] =>
    if y1.isDigit && y2.isDigit && y3.isDigit && y4.isDigit && h1 == '-' &&
        m1.isDigit && m2.isDigit && h2 == '-' && d1.isDigit && d2.isDigit then
      let y := ((digitVal y1 * 10 + digitVal y2) * 10 + digitVal y3) * 10 + digitVal y4
      let m := digitVal m1 * 10 + digitVal m2
      let d := digitVal d1 * 10 + digitVal d2
      if 1 ≤ m ∧ m ≤ 12 ∧ 1 ≤ d ∧ d ≤ daysInMonth y m then some ⟨y, m, d⟩
      else none
    else none
  | _ => none

/-- Two-digit zero padding, as in Go layout fields `01` and `02`. -/
def pad2 (n : Nat) : String := if n < 10 then "0" ++ toString n else toString n

/-- Four-digit zero padding, as in Go layout field `2006`. -/
def pad4 (n : Nat) : String :=
  if n < 10 then "000" ++ toString n
  else if n < 100 then "00" ++ toString n
  else if n < 1000 then "0" ++ toString n
  else toString n

/-- Go `t.Format("2006-01-02")` on a parsed date. -/
def formatDate (d : Date) : String :=
  pad4 d.year ++ "-" ++ pad2 d.month ++ "-" ++ pad2 d.day

/-- The confirmation message built at main.go line 124. -/
def greetMessage (firstName lastName : String) : String :=
  "Thank you, " ++ firstName ++ " " ++ lastName ++ "! Your greeting has been recorded."

/-- The `/greet` handler (main.go lines 105-158): an empty first or last
name is rejected with a 400 response before anything is written; otherwise
one row is inserted whose message is computed from the two names and whose
timestamp is the formatted wall-clock time (passed in here as a string). -/
def insert (s : StoreState) (firstName lastName timestamp : String) :
    Except AppError (StoreState × Row) :=
  if firstName = "" ∨ lastName = "" then .error .invalidInput
  else
    let row : Row :=
      ⟨s.nextId, firstName, lastName, greetMessage firstName lastName, timestamp⟩
    .ok (⟨s.rows ++ [row], s.nextId + 1⟩, row)

/-- Projection of a table row to the client-visible shape, as performed by
`rows.Scan(&g.FirstName, &g.LastName, &g.Message, &g.Timestamp)`. -/
def rowToGreeting (r : Row) : Greeting :=
  ⟨r.first_name, r.last_name, r.message, r.timestamp⟩

/-- The `/greetings` handler (main.go lines 161-191):
`SELECT first_name, last_name, message, timestamp FROM greetings`. -/
def listAll (s : StoreState) : List Greeting := s.rows.map rowToGreeting

/-- The `/clear` handler (main.go lines 193-211): `DELETE FROM greetings`
removes every row; the count is the rows-affected result of the DELETE
statement. -/
def clear (s : StoreState) : StoreState × Nat :=
  (⟨[], s.nextId⟩, s.rows.length)

/-- Query parameters of a `/search` request (main.go lines 225-228); an
absent parameter is the empty string, as with `r.URL.Query().Get`. -/
structure SearchFilter where
  firstName : String
  lastName : String
  startDateStr : String
  endDateStr : String
deriving Repr, DecidableEq

/-- Main.go lines 232-254: a date variable starts at the zero time and is
only assigned when the parameter is supplied; a parse failure is a 400
response. -/
def parseFilterDate (s : String) : Except AppError Date :=
  if s = "" then .ok zeroDate
  else
    match parseDate s with
    | some d => .ok d
    | none => .error .invalidFilter

/-- Main.go lines 256-280: conditions and bound parameters are appended in
the fixed order first name, last name, start date, end date; the zero-time
guards at lines 272 and 277 skip a date bound whose parsed value is the
zero time. -/
def buildConditions (firstName lastName : String) (startDate endDate : Date) :
    List String × List String :=
  let acc : List String × List String := ([], [])
  let acc := if firstName ≠ "" then
    (acc.1 ++ ["first_name = ?"], acc.2 ++ [firstName]) else acc
  let acc := if lastName ≠ "" then
    (acc.1 ++ ["last_name = ?"], acc.2 ++ [lastName]) else acc
  let acc := if !startDate.isZero then
    (acc.1 ++ ["DATE(timestamp) >= ?"], acc.2 ++ [formatDate startDate]) else acc
  let acc := if !endDate.isZero then
    (acc.1 ++ ["DATE(timestamp) <= ?"], acc.2 ++ [formatDate endDate]) else acc
  acc

/-- The SELECT clause shared by `/greetings` (line 165) and `/search`
(line 257). -/
def baseQuery : String :=
  "SELECT first_name, last_name, message, timestamp FROM greetings"

/-- Main.go lines 282-284: a WHERE clause is appended only when at least one
condition is present, with the conditions joined by AND. -/
def buildQuery (conds : List String) : String :=
  baseQuery ++
    (if conds.length > 0 then " WHERE " ++ String.intercalate " AND " conds else "")

/-- SQLite `DATE(timestamp)` applied to a stored `YYYY-MM-DD HH:MM:SS`
text: the date portion, i.e. the first ten characters. -/
def sqlDate (ts : String) : String := String.mk (ts.toList.take 10)

/-- Lexicographic order on character lists. -/
def charListLt : List Char → List Char → Bool
  | _, [] => false
  | [], _ :: _ => true
  | a :: as, b :: bs => a.toNat < b.toNat || (a.toNat == b.toNat && charListLt as bs)

/-- SQLite TEXT comparison under the default BINARY collation is
lexicographic on the bytes, which for the ASCII strings involved here is
the lexicographic order on characters. -/
def strLe (a b : String) : Bool := a == b || charListLt a.toList b.toList

/-- Evaluation of one appended condition against a row.  Each of the four
conditions the builder can emit reads only the selected text columns,
never `id`. -/
def evalCond (cond param : String) (g : Greeting) : Bool :=
  if cond = "first_name = ?" then g.firstName == param
  else if cond = "last_name = ?" then g.lastName == param
  else if cond = "DATE(timestamp) >= ?" then strLe param (sqlDate g.timestamp)
  else if cond = "DATE(timestamp) <= ?" then strLe (sqlDate g.timestamp) param
  else false

/-- A row satisfies the WHERE clause when every condition holds of it. -/
def matchesConds (cps : List (String × String)) (g : Greeting) : Bool :=
  cps.all fun cp => evalCond cp.1 cp.2 g

/-- Predicate construction of the `/search` handler (main.go lines
236-280): parse the two optional dates, failing fast, then build the
condition and parameter lists. -/
def searchConditions (f : SearchFilter) : Except AppError (List String × List String) :=
  match parseFilterDate f.startDateStr with
  | .error e => .error e
  | .ok sd =>
    match parseFilterDate f.endDateStr with
    | .error e => .error e
    | .ok ed => .ok (buildConditions f.firstName f.lastName sd ed)

/-- The whole `/search` handler (main.go lines 215-328) as a function of
the store state: rows satisfying the built WHERE clause, projected to the
selected columns. -/
def search (s : StoreState) (f : SearchFilter) : Except AppError (List Greeting) :=
  match searchConditions f with
  | .error e => .error e
  | .ok (conds, params) =>
    .ok (((s.rows.filter fun r =>
      matchesConds (conds.zip params) (rowToGreeting r)).map rowToGreeting))

/-- A sequence of `/greet` requests, each triple being first name, last
name and formatted timestamp; a rejected request leaves the state
unchanged. -/
def insertMany : StoreState → List (String × String × String) → StoreState
  | s, [] => s
  | s, (fn, ln, ts) :: rest =>
    match insert s fn ln ts with
    | .ok (s1, _) => insertMany s1 rest
    | .error _ => insertMany s rest

/-- The Predicate Builder algorithm in the words of the spec, for the claim
comparing builder output with the spec: one condition and one bound
parameter per present field, in the fixed field order first name, last
name, start date, end date, with the amendment that a supplied date bound
whose parsed value is the zero time contributes nothing. -/
def specConditions (f : SearchFilter) (sd ed : Date) : List (String × String) :=
  (if f.firstName ≠ "" then [("first_name = ?", f.firstName)] else []) ++
  (if f.lastName ≠ "" then [("last_name = ?", f.lastName)] else []) ++
  (if !sd.isZero then [("DATE(timestamp) >= ?", formatDate sd)] else []) ++
  (if !ed.isZero then [("DATE(timestamp) <= ?", formatDate ed)] else [])

example : parseDate "2024-01-31" = some ⟨2024, 1, 31⟩ := by decide
example : parseDate "01-2024-01" = none := by decide
example : parseDate "0001-01-01" = some zeroDate := by decide
example : parseDate "2023-02-29" = none := by decide
example : parseDate "2024-02-29" = some ⟨2024, 2, 29⟩ := by decide
example : formatDate ⟨2024, 1, 5⟩ = "2024-01-05" := by decide
example : strLe "2024-01-01" "2024-01-15" = true := by decide
example : sqlDate "2024-01-15 10:00:00" = "2024-01-15" := by decide

/-- Mapping a projection over a filtered list, when the predicate factors
through the projection, equals filtering the projected list. -/
theorem map_filter_eq {α β : Type} (g : α → β) (p : β → Bool) (l : List α) :
    (l.filter fun r => p (g r)).map g = (l.map g).filter p := by
  induction l with
  | nil => rfl
  | cons a l ih => by_cases hpa : p (g a) <;> simp [List.filter_cons, hpa, ih]

/-- C3: for every store state, a search with no filter fields set returns
exactly the records of listAll, in the same order. -/
theorem C3_search_empty_filter_eq_listAll (s : StoreState) :
    search s ⟨"", "", "", ""⟩ = .ok (listAll s) := by
  simp [search, searchConditions, parseFilterDate, buildConditions, matchesConds,
    listAll, Date.isZero, zeroDate]

/-- C5: clear removes every row unconditionally and reports the number of
rows removed; a second clear with no intervening insert removes zero rows
and leaves listAll empty. -/
theorem C5_clear_removes_all (s : StoreState) :
    (clear s).1.rows = [] ∧ (clear s).2 = s.rows.length ∧
    (clear (clear s).1).2 = 0 ∧ listAll (clear (clear s).1).1 = [] := by
  simp [clear, listAll]

/-- C6: an insert with an empty first or last name fails with the
invalid-input rejection and leaves the table unchanged. -/
theorem C6_insert_empty_name_rejected (s : StoreState) (fn ln ts : String)
    (h : fn = "" ∨ ln = "") :
    insert s fn ln ts = .error .invalidInput ∧
    insertMany s [(fn, ln, ts)] = s := by
  have hi : insert s fn ln ts = .error .invalidInput := by
    unfold insert; rw [if_pos h]
  exact ⟨hi, by simp [insertMany, hi]⟩

/-- Witness for C6 at a concrete input. -/
theorem C6_witness :
    (("" : String) = "" ∨ ("Lee" : String) = "") ∧
    (insert ⟨[], 1⟩ "" "Lee" "2024-05-01 10:00:00" = .error .invalidInput ∧
      insertMany ⟨[], 1⟩ [("", "Lee", "2024-05-01 10:00:00")] = ⟨[], 1⟩) :=
  ⟨Or.inl rfl,
    C6_insert_empty_name_rejected ⟨[], 1⟩ "" "Lee" "2024-05-01 10:00:00" (Or.inl rfl)⟩

/-- C4: a successful insert of two non-empty names is visible through
listAll as a record carrying those names and the deterministic
confirmation message computed from them. -/
theorem C4_insert_roundtrip (s : StoreState) (fn ln ts : String)
    (hf : fn ≠ "") (hl : ln ≠ "") :
    ∃ s1 r, insert s fn ln ts = .ok (s1, r) ∧
      Greeting.mk fn ln (greetMessage fn ln) ts ∈ listAll s1 := by
  refine ⟨⟨s.rows ++ [⟨s.nextId, fn, ln, greetMessage fn ln, ts⟩], s.nextId + 1⟩,
    ⟨s.nextId, fn, ln, greetMessage fn ln, ts⟩, ?_, ?_⟩
  · unfold insert
    rw [if_neg (not_or.mpr ⟨hf, hl⟩)]
  · simp [listAll, rowToGreeting]

/-- Witness for C4 at a concrete input. -/
theorem C4_witness :
    ("Ann" : String) ≠ "" ∧ ("Lee" : String) ≠ "" ∧
    (∃ s1 r, insert ⟨[], 1⟩ "Ann" "Lee" "2024-05-01 10:00:00" = .ok (s1, r) ∧
      Greeting.mk "Ann" "Lee" (greetMessage "Ann" "Lee") "2024-05-01 10:00:00" ∈
        listAll s1) :=
  ⟨by decide, by decide,
    C4_insert_roundtrip ⟨[], 1⟩ "Ann" "Lee" "2024-05-01 10:00:00"
      (by decide) (by decide)⟩

/-- A failing parseFilterDate always reports the invalid-filter error. -/
theorem parseFilterDate_error_eq (s : String) (e : AppError)
    (h : parseFilterDate s = .error e) : e = .invalidFilter := by
  unfold parseFilterDate at h
  by_cases hs : s = ""
  · rw [if_pos hs] at h; exact absurd h (by simp)
  · rw [if_neg hs] at h
    cases hp : parseDate s with
    | some d => rw [hp] at h; exact absurd h (by simp)
    | none => rw [hp] at h; injection h with h; exact h.symm

/-- C2: whenever a supplied start or end date string fails to parse as
YYYY-MM-DD, search returns the invalid-filter rejection, never a silently
empty or unfiltered result. -/
theorem C2_invalid_date_rejected (s : StoreState) (f : SearchFilter)
    (h : (f.startDateStr ≠ "" ∧ parseDate f.startDateStr = none) ∨
         (f.endDateStr ≠ "" ∧ parseDate f.endDateStr = none)) :
    search s f = .error .invalidFilter := by
  unfold search searchConditions
  rcases h with ⟨hne, hp⟩ | ⟨hne, hp⟩
  · have hs : parseFilterDate f.startDateStr = .error .invalidFilter := by
      unfold parseFilterDate; rw [if_neg hne, hp]
    rw [hs]
  · have he : parseFilterDate f.endDateStr = .error .invalidFilter := by
      unfold parseFilterDate; rw [if_neg hne, hp]
    cases hsd : parseFilterDate f.startDateStr with
    | error e => rw [parseFilterDate_error_eq _ _ hsd]
    | ok sd => rw [he]

/-- Witness for C2 at a concrete input. -/
theorem C2_witness :
    ((("01-2024-01" : String) ≠ "" ∧ parseDate "01-2024-01" = none) ∨
      ((("" : String)) ≠ "" ∧ parseDate "" = none)) ∧
    search ⟨[], 1⟩ ⟨"", "", "01-2024-01", ""⟩ = .error .invalidFilter :=
  ⟨Or.inl ⟨by decide, by decide⟩,
    C2_invalid_date_rejected ⟨[], 1⟩ ⟨"", "", "01-2024-01", ""⟩
      (Or.inl ⟨by decide, by decide⟩)⟩

/-- C9: a date bound supplied as 0001-01-01 parses successfully to the zero
time, so the IsZero guard silently drops that bound: the search behaves
exactly as if the bound had not been supplied, neither applying it nor
rejecting it. -/
theorem C9_zero_date_bound_dropped (fn ln other : String) (s : StoreState) :
    parseDate "0001-01-01" = some zeroDate ∧
    search s ⟨fn, ln, "0001-01-01", other⟩ = search s ⟨fn, ln, "", other⟩ ∧
    search s ⟨fn, ln, other, "0001-01-01"⟩ = search s ⟨fn, ln, other, ""⟩ := by
  refine ⟨by decide, ?_, ?_⟩
  · simp only [search, searchConditions]
    rw [show parseFilterDate "0001-01-01" = Except.ok zeroDate from rfl,
        show parseFilterDate "" = Except.ok zeroDate from rfl]
  · simp only [search, searchConditions,
      show parseFilterDate "0001-01-01" = Except.ok zeroDate from rfl,
      show parseFilterDate "" = Except.ok zeroDate from rfl]

/-- C1 counterexample: the filter whose only supplied field is the start
date 0001-01-01 has a present (non-empty, successfully parsed) date field,
yet the builder emits zero conditions and zero parameters, so the builder
does not append one condition per present field. -/
theorem C1_counterexample :
    (SearchFilter.mk "" "" "0001-01-01" "").startDateStr ≠ "" ∧
    parseDate (SearchFilter.mk "" "" "0001-01-01" "").startDateStr = some zeroDate ∧
    searchConditions (SearchFilter.mk "" "" "0001-01-01" "") = .ok ([], []) :=
  ⟨by decide, by decide, rfl⟩

/-- C1 (amended): for every filter whose supplied date strings parse, the
builder appends exactly one condition and one bound parameter per present
field whose parsed value is not the zero time, in the fixed field order
first name, last name, start date, end date, with equality conditions for
the names and date-portion comparisons for the bounds; the conditions are
joined with AND, and no WHERE clause is emitted when zero conditions are
present. -/
theorem C1_predicate_builder (f : SearchFilter) (sd ed : Date)
    (hs : parseFilterDate f.startDateStr = .ok sd)
    (he : parseFilterDate f.endDateStr = .ok ed) :
    searchConditions f =
      .ok ((specConditions f sd ed).map Prod.fst,
           (specConditions f sd ed).map Prod.snd) ∧
    (specConditions f sd ed = [] →
      buildQuery ((specConditions f sd ed).map Prod.fst) = baseQuery) ∧
    (specConditions f sd ed ≠ [] →
      buildQuery ((specConditions f sd ed).map Prod.fst) =
        baseQuery ++ (" WHERE " ++
          String.intercalate " AND " ((specConditions f sd ed).map Prod.fst))) := by
  have h2 : buildConditions f.firstName f.lastName sd ed =
      ((specConditions f sd ed).map Prod.fst, (specConditions f sd ed).map Prod.snd) := by
    unfold buildConditions specConditions
    by_cases h11 : f.firstName ≠ "" <;> by_cases h22 : f.lastName ≠ "" <;>
      by_cases h33 : (!sd.isZero) = true <;> by_cases h44 : (!ed.isZero) = true <;>
      simp [h11, h22, h33, h44]
  refine ⟨?_, ?_, ?_⟩
  · unfold searchConditions
    rw [hs, he]
    exact congrArg Except.ok h2
  · intro hnil
    rw [hnil]
    decide
  · intro hne
    have hlen : 0 < ((specConditions f sd ed).map Prod.fst).length := by
      rw [List.length_map]
      exact List.length_pos.mpr hne
    unfold buildQuery
    rw [if_pos hlen]

/-- Witness for the amended C1 at a concrete input. -/
theorem C1_witness :
    parseFilterDate (SearchFilter.mk "Ann" "Lee" "2024-01-01" "2024-01-31").startDateStr =
      .ok ⟨2024, 1, 1⟩ ∧
    parseFilterDate (SearchFilter.mk "Ann" "Lee" "2024-01-01" "2024-01-31").endDateStr =
      .ok ⟨2024, 1, 31⟩ ∧
    (searchConditions (SearchFilter.mk "Ann" "Lee" "2024-01-01" "2024-01-31") =
      .ok ((specConditions (SearchFilter.mk "Ann" "Lee" "2024-01-01" "2024-01-31")
              ⟨2024, 1, 1⟩ ⟨2024, 1, 31⟩).map Prod.fst,
           (specConditions (SearchFilter.mk "Ann" "Lee" "2024-01-01" "2024-01-31")
              ⟨2024, 1, 1⟩ ⟨2024, 1, 31⟩).map Prod.snd) ∧
    (specConditions (SearchFilter.mk "Ann" "Lee" "2024-01-01" "2024-01-31")
        ⟨2024, 1, 1⟩ ⟨2024, 1, 31⟩ = [] →
      buildQuery ((specConditions (SearchFilter.mk "Ann" "Lee" "2024-01-01" "2024-01-31")
        ⟨2024, 1, 1⟩ ⟨2024, 1, 31⟩).map Prod.fst) = baseQuery) ∧
    (specConditions (SearchFilter.mk "Ann" "Lee" "2024-01-01" "2024-01-31")
        ⟨2024, 1, 1⟩ ⟨2024, 1, 31⟩ ≠ [] →
      buildQuery ((specConditions (SearchFilter.mk "Ann" "Lee" "2024-01-01" "2024-01-31")
        ⟨2024, 1, 1⟩ ⟨2024, 1, 31⟩).map Prod.fst) =
        baseQuery ++ (" WHERE " ++
          String.intercalate " AND "
            ((specConditions (SearchFilter.mk "Ann" "Lee" "2024-01-01" "2024-01-31")
              ⟨2024, 1, 1⟩ ⟨2024, 1, 31⟩).map Prod.fst)))) :=
  ⟨rfl, rfl,
    C1_predicate_builder (SearchFilter.mk "Ann" "Lee" "2024-01-01" "2024-01-31")
      ⟨2024, 1, 1⟩ ⟨2024, 1, 31⟩ rfl rfl⟩

/-- The list of consecutive integers starting at s is strictly sorted. -/
theorem range'_pairwise_lt (n : Nat) : ∀ s : Nat, (List.range' s n).Pairwise (· < ·) := by
  induction n with
  | zero => intro s; simp
  | succ n ih =>
    intro s
    rw [List.range'_succ]
    refine List.Pairwise.cons ?_ (ih (s + 1))
    intro b hb
    have hmem := List.mem_range'_1.mp hb
    omega

/-- C7: a sequence of N successful inserts extends the table by rows whose
store-assigned ids are exactly the consecutive integers from the current
counter value through counter + N - 1, in insertion order, and the ids are
strictly increasing, hence unique and never reused within the sequence. -/
theorem C7_insert_ids (s : StoreState) (ps : List (String × String × String))
    (h : ∀ p ∈ ps, p.1 ≠ "" ∧ p.2.1 ≠ "") :
    (insertMany s ps).rows.map Row.id
        = s.rows.map Row.id ++ List.range' s.nextId ps.length ∧
    (insertMany s ps).nextId = s.nextId + ps.length ∧
    (List.range' s.nextId ps.length).Pairwise (· < ·) := by
  refine ⟨?_, ?_, range'_pairwise_lt ps.length s.nextId⟩ <;>
  · induction ps generalizing s with
    | nil => simp [insertMany]
    | cons p rest ih =>
      obtain ⟨fn, ln, ts⟩ := p
      have hp := h _ (List.mem_cons_self _ _)
      have hrest : ∀ q ∈ rest, q.1 ≠ "" ∧ q.2.1 ≠ "" :=
        fun q hq => h q (List.mem_cons_of_mem _ hq)
      have hins : insert s fn ln ts =
          .ok (⟨s.rows ++ [⟨s.nextId, fn, ln, greetMessage fn ln, ts⟩], s.nextId + 1⟩,
               ⟨s.nextId, fn, ln, greetMessage fn ln, ts⟩) := by
        unfold insert
        rw [if_neg (not_or.mpr ⟨hp.1, hp.2⟩)]
      have hstep : insertMany s ((fn, ln, ts) :: rest) =
          insertMany ⟨s.rows ++ [⟨s.nextId, fn, ln, greetMessage fn ln, ts⟩],
            s.nextId + 1⟩ rest := by
        simp [insertMany, hins]
      rw [hstep]
      have ihr := ih ⟨s.rows ++ [⟨s.nextId, fn, ln, greetMessage fn ln, ts⟩],
        s.nextId + 1⟩ hrest
      simp only [List.length_cons, List.range'_succ]
      simp [ihr, List.range'_succ, Nat.add_comm, Nat.add_assoc, Nat.add_left_comm]

/-- Witness for C7 at a concrete input. -/
theorem C7_witness :
    (∀ p ∈ [(("Ann" : String), ("Lee" : String), ("2024-05-01 10:00:00" : String)),
            ("Bob", "Kim", "2024-05-02 11:00:00")], p.1 ≠ "" ∧ p.2.1 ≠ "") ∧
    ((insertMany ⟨[], 1⟩ [("Ann", "Lee", "2024-05-01 10:00:00"),
        ("Bob", "Kim", "2024-05-02 11:00:00")]).rows.map Row.id
          = (StoreState.mk [] 1).rows.map Row.id ++
            List.range' 1 ([(("Ann" : String), ("Lee" : String),
              ("2024-05-01 10:00:00" : String)),
              ("Bob", "Kim", "2024-05-02 11:00:00")]).length ∧
      (insertMany ⟨[], 1⟩ [("Ann", "Lee", "2024-05-01 10:00:00"),
        ("Bob", "Kim", "2024-05-02 11:00:00")]).nextId
          = 1 + ([(("Ann" : String), ("Lee" : String),
              ("2024-05-01 10:00:00" : String)),
              ("Bob", "Kim", "2024-05-02 11:00:00")]).length ∧
      (List.range' 1 ([(("Ann" : String), ("Lee" : String),
          ("2024-05-01 10:00:00" : String)),
          ("Bob", "Kim", "2024-05-02 11:00:00")]).length).Pairwise (· < ·)) :=
  ⟨by decide,
    C7_insert_ids ⟨[], 1⟩ [("Ann", "Lee", "2024-05-01 10:00:00"),
      ("Bob", "Kim", "2024-05-02 11:00:00")] (by decide)⟩

/-- C10: neither listAll nor search can observe the id column: two store
states whose rows agree on the four selected columns, id values apart,
produce identical listAll and search results. -/
theorem C10_id_not_observable (s1 s2 : StoreState) (f : SearchFilter)
    (h : s1.rows.map rowToGreeting = s2.rows.map rowToGreeting) :
    listAll s1 = listAll s2 ∧ search s1 f = search s2 f := by
  constructor
  · unfold listAll; rw [h]
  · unfold search
    cases hc : searchConditions f with
    | error e => rfl
    | ok cp =>
      obtain ⟨conds, params⟩ := cp
      show Except.ok ((s1.rows.filter fun r =>
          matchesConds (conds.zip params) (rowToGreeting r)).map rowToGreeting) =
        Except.ok ((s2.rows.filter fun r =>
          matchesConds (conds.zip params) (rowToGreeting r)).map rowToGreeting)
      rw [map_filter_eq rowToGreeting, map_filter_eq rowToGreeting, h]

/-- Witness for C10 at a concrete input: two stores differing only in ids. -/
theorem C10_witness :
    ((StoreState.mk [⟨5, "Ann", "Lee", "msg", "2024-05-01 10:00:00"⟩] 6).rows.map
        rowToGreeting
      = (StoreState.mk [⟨9, "Ann", "Lee", "msg", "2024-05-01 10:00:00"⟩] 10).rows.map
        rowToGreeting) ∧
    (listAll ⟨[⟨5, "Ann", "Lee", "msg", "2024-05-01 10:00:00"⟩], 6⟩
        = listAll ⟨[⟨9, "Ann", "Lee", "msg", "2024-05-01 10:00:00"⟩], 10⟩ ∧
      search ⟨[⟨5, "Ann", "Lee", "msg", "2024-05-01 10:00:00"⟩], 6⟩
          ⟨"Ann", "", "", ""⟩
        = search ⟨[⟨9, "Ann", "Lee", "msg", "2024-05-01 10:00:00"⟩], 10⟩
          ⟨"Ann", "", "", ""⟩) :=
  ⟨rfl,
    C10_id_not_observable ⟨[⟨5, "Ann", "Lee", "msg", "2024-05-01 10:00:00"⟩], 6⟩
      ⟨[⟨9, "Ann", "Lee", "msg", "2024-05-01 10:00:00"⟩], 10⟩
      ⟨"Ann", "", "", ""⟩ rfl⟩

end GreetStore
